import Mathlib

/-!
Verification development for the Kernel mail side-car (Go sources under
native/go).  The Go code is shallowly embedded: the generic connection
pool (internal/pool), the IMAP and SMTP connection wrappers
(email/imap, email/smtp) and the request handlers become executable
Lean functions over explicit state; machine integers are modelled as
Nat/Int with explicit reduction modulo 2^w where the Go code can
overflow; Go functions that can fail return Except.  Network effects
(the underlying go-imap / net/smtp clients) are modelled by explicit
behaviour parameters: an operation that asks the server something takes
the server's answer (or failure) as an argument, and the embedding
records exactly which commands would reach the wire.
-/

/-! ### Machine-integer helpers -/

/-- Modulus of Go's uint64. -/
def UINT64MOD : Nat := 18446744073709551616

/-- Half of the uint64 modulus, the first value that becomes negative when a
uint64 is converted to Go's 64-bit int. -/
def INT64HALF : Nat := 9223372036854775808

/-- Conversion int(n) of a uint64 value n to Go's 64-bit signed int
(two's complement reinterpretation). -/
def uint64ToInt64 (n : Nat) : Int :=
  if n % UINT64MOD < INT64HALF then ((n % UINT64MOD : Nat) : Int)
  else ((n % UINT64MOD : Nat) : Int) - (UINT64MOD : Int)

/-! ### Connection pool (internal/pool/pool.go)

The Go pool is `connections map[int]any` plus a `nextID uint64` counter.
The map is modelled as an association list where the most recent binding
for a key is first (insertion prepends, matching map-assignment
overwrite semantics) and deletion removes every binding of the key.  In
every pool state the Go program can reach, keys are distinct, so list
length agrees with Go's `len` on the map. -/

structure ConnectionPool (α : Type) where
  connections : List (Int × α)
  nextID : Nat
deriving DecidableEq

/-- NewConnectionPool: empty map, nextID 1. -/
def ConnectionPool.New {α : Type} : ConnectionPool α :=
  { connections := [], nextID := 1 }

/-- Add (pool.go): reject when len(connections) is at least 10000, otherwise
assign handle := int(nextID), increment nextID (uint64 arithmetic) and store
the connection under the handle. -/
def ConnectionPool.Add {α : Type} (p : ConnectionPool α) (conn : α) :
    ConnectionPool α × Except String Int :=
  if p.connections.length ≥ 10000 then
    (p, .error "connection pool limit reached")
  else
    let handle := uint64ToInt64 p.nextID
    ({ connections := (handle, conn) :: p.connections,
       nextID := (p.nextID + 1) % UINT64MOD },
     .ok handle)

/-- Get (pool.go): look the handle up; absent handles give the error
"invalid connection handle" with no record of why the handle is absent. -/
def ConnectionPool.Get {α : Type} (p : ConnectionPool α) (handle : Int) :
    Except String α :=
  match p.connections.find? (fun kv => kv.1 == handle) with
  | some kv => .ok kv.2
  | none => .error "invalid connection handle"

/-- Remove (pool.go): delete(connections, handle); total, no error, no-op on
an absent handle. -/
def ConnectionPool.Remove {α : Type} (p : ConnectionPool α) (handle : Int) :
    ConnectionPool α :=
  { connections := p.connections.filter (fun kv => kv.1 != handle),
    nextID := p.nextID }

/-- Count (pool.go): len(connections). -/
def ConnectionPool.Count {α : Type} (p : ConnectionPool α) : Nat :=
  p.connections.length

/-- Model of in-place mutation of a pooled object: the handlers call methods
on the pointer stored in the map, so the pool entry for the handle now holds
the mutated object. -/
def ConnectionPool.update {α : Type} (p : ConnectionPool α) (handle : Int) (c : α) :
    ConnectionPool α :=
  { connections := p.connections.map (fun kv => if kv.1 == handle then (kv.1, c) else kv),
    nextID := p.nextID }

/-! ### Base64 (Go encoding/base64 StdEncoding, as used by FetchMessages)

Bytes are Nats below 256; the encoder follows RFC 4648 standard base64
with padding, which is what base64.StdEncoding.EncodeToString computes. -/

/-- Alphabet of Go's base64.StdEncoding. -/
def base64Alphabet : List Char :=
  "ABCDEFGHIJKLMNOPQRSTUVWXYZabcdefghijklmnopqrstuvwxyz0123456789+/".toList

/-- Character for a 6-bit group. -/
def b64Char (i : Nat) : Char := base64Alphabet.getD i '='

/-- Encode a byte list three bytes at a time, padding the final group. -/
def base64Chunks : List Nat → List Char
  | [] => []
  | [b1] =>
      [b64Char (b1 % 256 / 4), b64Char (b1 % 4 * 16), '=', '=']
  | [b1, b2] =>
      [b64Char (b1 % 256 / 4), b64Char (b1 % 4 * 16 + b2 % 256 / 16),
       b64Char (b2 % 16 * 4), '=']
  | b1 :: b2 :: b3 :: rest =>
      b64Char (b1 % 256 / 4) :: b64Char (b1 % 4 * 16 + b2 % 256 / 16) ::
      b64Char (b2 % 16 * 4 + b3 % 256 / 64) :: b64Char (b3 % 256 % 64) ::
      base64Chunks rest

/-- base64.StdEncoding.EncodeToString. -/
def base64Encode (bs : List Nat) : String := String.mk (base64Chunks bs)

/-! ### Connection state (email/imap/connection.go, email/smtp/connection.go)

Both wrappers have the same mutable state relevant to the spec: a closed
flag and a client pointer that is nil after Close.  The behaviour of the
one network call Close makes (Logout for IMAP, Quit for SMTP) is carried
as the field logoutErr: whether that call would return an error. -/

structure Connection where
  closed : Bool
  clientNil : Bool
  logoutErr : Bool
deriving DecidableEq

/-- Close (connection.go, both modules): under the exclusive lock, return
nil immediately when already closed or the client is nil; otherwise set the
closed flag, call Logout/Quit on the client, drop the client pointer, and
return the Logout/Quit error. -/
def Connection.Close (c : Connection) : Connection × Except String Unit :=
  if c.closed || c.clientNil then (c, .ok ())
  else
    ({ closed := true, clientNil := true, logoutErr := c.logoutErr },
     if c.logoutErr then .error "logout failed" else .ok ())

/-- Guard shared by every data operation (the body of the RLock/Lock block):
closed or nil client means the error "client not connected". -/
def Connection.notConnected (c : Connection) : Bool :=
  c.closed || c.clientNil

/-! ### IMAP search criteria (imap/protocol.go SearchUIDs)

The criteria the Go code builds is a single UID range whose upper bound is
always 0, go-imap's encoding of an unbounded range.  Arithmetic on the
uint32 watermark reduces modulo 2^32. -/

structure SeqRange where
  lo : Nat
  hi : Nat
deriving DecidableEq

/-- Criteria constructed by SearchUIDs for a watermark (a uint32, so the
argument is taken below 4294967296): AddRange(highestUID+1, 0) when the
watermark is positive, else AddRange(1, 0); the sum highestUID+1 is uint32
arithmetic. -/
def searchCriteria (highestUID : Nat) : SeqRange :=
  if highestUID % 4294967296 > 0 then
    { lo := (highestUID % 4294967296 + 1) % 4294967296, hi := 0 }
  else
    { lo := 1, hi := 0 }

/-- SearchUIDs (imap/protocol.go): fail when not connected, otherwise send
the criteria to the server and return its UID list, wrapping a server
failure as "search failed: ...". -/
def Connection.SearchUIDs (c : Connection) (highestUID : Nat)
    (server : SeqRange → Except String (List Nat)) : Except String (List Nat) :=
  if c.notConnected then .error "client not connected"
  else
    match server (searchCriteria highestUID) with
    | .error e => .error ("search failed: " ++ e)
    | .ok uids => .ok uids

/-- SelectFolder (imap/protocol.go): fail when not connected, otherwise
return the result of the SELECT round trip unchanged. -/
def Connection.SelectFolder (c : Connection) (serverErr : Option String) :
    Except String Unit :=
  if c.notConnected then .error "client not connected"
  else
    match serverErr with
    | some e => .error e
    | none => .ok ()

/-- SetFlags (imap/protocol.go): fail when not connected, otherwise return
the result of the UID STORE round trip unchanged. -/
def Connection.SetFlags (c : Connection) (serverErr : Option String) :
    Except String Unit :=
  if c.notConnected then .error "client not connected"
  else
    match serverErr with
    | some e => .error e
    | none => .ok ()

/-- CopyMessage (imap/protocol.go): fail when not connected, otherwise
return the result of the UID COPY round trip unchanged. -/
def Connection.CopyMessage (c : Connection) (serverErr : Option String) :
    Except String Unit :=
  if c.notConnected then .error "client not connected"
  else
    match serverErr with
    | some e => .error e
    | none => .ok ()

/-- Expunge (imap/protocol.go): fail when not connected, otherwise return
the result of the EXPUNGE round trip unchanged. -/
def Connection.Expunge (c : Connection) (serverErr : Option String) :
    Except String Unit :=
  if c.notConnected then .error "client not connected"
  else
    match serverErr with
    | some e => .error e
    | none => .ok ()

/-- Noop (connection.go, both modules): fail when not connected, otherwise
return the result of the NOOP round trip unchanged. -/
def Connection.Noop (c : Connection) (serverErr : Option String) :
    Except String Unit :=
  if c.notConnected then .error "client not connected"
  else
    match serverErr with
    | some e => .error e
    | none => .ok ()

/-! ### Bulk fetch (imap/protocol.go FetchMessages)

The messages the server streams over the channel are a list of (uid,
optional body): a nil message, a nil body literal and a body read error
all make the loop skip the message, so they collapse to body = none.
The Bool in the result records whether a UidFetch round trip was
started. -/

structure Msg where
  uid : Nat
  body : Option (List Nat)
deriving DecidableEq

/-- Loop body of FetchMessages: keep the messages with a readable body,
base64-encoding each, keyed by UID. -/
def fetchLoop : List Msg → List (Nat × String)
  | [] => []
  | m :: rest =>
      match m.body with
      | none => fetchLoop rest
      | some b => (m.uid, base64Encode b) :: fetchLoop rest

/-- FetchMessages (imap/protocol.go): fail when not connected (no round
trip); an empty UID list returns an empty map with no round trip; otherwise
start UidFetch, collect the streamed messages, and fail with
"fetch failed: ..." exactly when the fetch command itself reported an
error. -/
def Connection.FetchMessages (c : Connection) (uids : List Nat)
    (msgs : List Msg) (cmdErr : Option String) :
    Except String (List (Nat × String)) × Bool :=
  if c.notConnected then (.error "client not connected", false)
  else if uids.isEmpty then (.ok [], false)
  else
    let result := fetchLoop msgs
    match cmdErr with
    | some e => (.error ("fetch failed: " ++ e), true)
    | none => (.ok result, true)

/-! ### SMTP send (smtp/protocol.go SendMessage)

The three-phase send is embedded with an explicit trace of the commands
that reach the wire.  Each phase's outcome is a behaviour parameter:
none for success, some message for the error Go would wrap. -/

inductive Phase
  | mail
  | rcpt (addr : String)
  | data
  | write
  | closeData
deriving DecidableEq

/-- Recipient loop of SendMessage: issue RCPT TO for each recipient in
order, stopping at the first rejection with an error naming that
recipient's address. -/
def rcptLoop (rcptErr : String → Option String) : List String → List Phase × Except String Unit
  | [] => ([], .ok ())
  | r :: rest =>
      match rcptErr r with
      | some e => ([Phase.rcpt r], .error ("RCPT TO failed for " ++ r ++ ": " ++ e))
      | none =>
          let res := rcptLoop rcptErr rest
          (Phase.rcpt r :: res.1, res.2)

/-- SendMessage (smtp/protocol.go): guard, then MAIL FROM, then the
recipient loop, then DATA, the payload write and the DATA close; the first
failing phase aborts the rest and surfaces a phase-specific error. -/
def Connection.SendMessage (c : Connection) (rcpts : List String)
    (mailErr : Option String) (rcptErr : String → Option String)
    (dataErr : Option String) (writeErr : Option String) (closeErr : Option String) :
    List Phase × Except String Unit :=
  if c.notConnected then ([], .error "client not connected")
  else
    match mailErr with
    | some e => ([Phase.mail], .error ("MAIL FROM failed: " ++ e))
    | none =>
        let r := rcptLoop rcptErr rcpts
        match r.2 with
        | .error e => (Phase.mail :: r.1, .error e)
        | .ok _ =>
            match dataErr with
            | some e => (Phase.mail :: r.1 ++ [Phase.data], .error ("DATA command failed: " ++ e))
            | none =>
                match writeErr with
                | some e =>
                    (Phase.mail :: r.1 ++ [Phase.data, Phase.write],
                     .error ("failed to write message: " ++ e))
                | none =>
                    match closeErr with
                    | some e =>
                        (Phase.mail :: r.1 ++ [Phase.data, Phase.write, Phase.closeData],
                         .error ("failed to close DATA: " ++ e))
                    | none =>
                        (Phase.mail :: r.1 ++ [Phase.data, Phase.write, Phase.closeData],
                         .ok ())

/-! ### IMAP connect (imap/connection.go Connect, imap/handler.go)

Dial and login outcomes are behaviour parameters; the Bool in the result
records whether Connect called Logout on the transport before returning
(the teardown on authentication failure). -/

/-- Connect (imap/connection.go): DialTLS, then Login; a dial failure
returns "failed to connect: ..." without any session to tear down; a login
failure logs the transport out and returns "login failed: ..."; success
yields a fresh open connection. -/
def imapConnect (dialErr authErr : Option String) : Except String Connection × Bool :=
  match dialErr with
  | some e => (.error ("failed to connect: " ++ e), false)
  | none =>
      match authErr with
      | some e => (.error ("login failed: " ++ e), true)
      | none => (.ok { closed := false, clientNil := false, logoutErr := false }, false)

/-! ### Handlers (imap/handler.go, smtp/handler.go)

Each handler resolves the handle in the pool, delegates to the
connection method and converts the outcome into the response envelope;
an error anywhere becomes the error response carrying that message. -/

/-- handleConnect (imap/handler.go): Connect, then pool.Add; either failure
is returned as an error with the pool unchanged (Add does not mutate on
failure). -/
def Handler.handleConnect (pl : ConnectionPool Connection)
    (dialErr authErr : Option String) : ConnectionPool Connection × Except String Int :=
  match (imapConnect dialErr authErr).1 with
  | .error e => (pl, .error e)
  | .ok c =>
      match ConnectionPool.Add pl c with
      | (pl1, .ok h) => (pl1, .ok h)
      | (pl1, .error e) => (pl1, .error e)

/-- handleClose (imap/handler.go and smtp/handler.go, same shape): Get the
handle, call Close on the connection (mutating the pooled object), and only
when Close returned nil remove the handle from the pool. -/
def Handler.handleClose (pl : ConnectionPool Connection) (h : Int) :
    ConnectionPool Connection × Except String Unit :=
  match ConnectionPool.Get pl h with
  | .error e => (pl, .error e)
  | .ok c =>
      let r := Connection.Close c
      let pl1 := ConnectionPool.update pl h r.1
      match r.2 with
      | .error e => (pl1, .error e)
      | .ok _ => (ConnectionPool.Remove pl1 h, .ok ())

/-- handleSelectFolder (imap/handler.go): Get then SelectFolder. -/
def Handler.handleSelectFolder (pl : ConnectionPool Connection) (h : Int)
    (serverErr : Option String) : Except String Unit :=
  match ConnectionPool.Get pl h with
  | .error e => .error e
  | .ok c => Connection.SelectFolder c serverErr

/-- handleSearchUIDs (imap/handler.go): Get then SearchUIDs. -/
def Handler.handleSearchUIDs (pl : ConnectionPool Connection) (h : Int)
    (highestUID : Nat) (server : SeqRange → Except String (List Nat)) :
    Except String (List Nat) :=
  match ConnectionPool.Get pl h with
  | .error e => .error e
  | .ok c => Connection.SearchUIDs c highestUID server

/-- handleFetchMessages (imap/handler.go): Get then FetchMessages. -/
def Handler.handleFetchMessages (pl : ConnectionPool Connection) (h : Int)
    (uids : List Nat) (msgs : List Msg) (cmdErr : Option String) :
    Except String (List (Nat × String)) :=
  match ConnectionPool.Get pl h with
  | .error e => .error e
  | .ok c => (Connection.FetchMessages c uids msgs cmdErr).1

/-- handleSetFlags (imap/handler.go): Get then SetFlags. -/
def Handler.handleSetFlags (pl : ConnectionPool Connection) (h : Int)
    (serverErr : Option String) : Except String Unit :=
  match ConnectionPool.Get pl h with
  | .error e => .error e
  | .ok c => Connection.SetFlags c serverErr

/-- handleCopyMessage (imap/handler.go): Get then CopyMessage. -/
def Handler.handleCopyMessage (pl : ConnectionPool Connection) (h : Int)
    (serverErr : Option String) : Except String Unit :=
  match ConnectionPool.Get pl h with
  | .error e => .error e
  | .ok c => Connection.CopyMessage c serverErr

/-- handleExpunge (imap/handler.go): Get then Expunge. -/
def Handler.handleExpunge (pl : ConnectionPool Connection) (h : Int)
    (serverErr : Option String) : Except String Unit :=
  match ConnectionPool.Get pl h with
  | .error e => .error e
  | .ok c => Connection.Expunge c serverErr

/-- handleNoop (imap/handler.go and smtp/handler.go): Get then Noop. -/
def Handler.handleNoop (pl : ConnectionPool Connection) (h : Int)
    (serverErr : Option String) : Except String Unit :=
  match ConnectionPool.Get pl h with
  | .error e => .error e
  | .ok c => Connection.Noop c serverErr

/-! ### Lock and transport traces (concurrency structure of the data ops)

Each connection method follows the same locking shape in the Go source:
acquire the connection's RWMutex (exclusive via Lock for SetFlags,
CopyMessage, Expunge; shared via RLock for SelectFolder, SearchUIDs,
FetchMessage(s), Noop and the SMTP SendMessage), check the closed flag
and read the client pointer, release the mutex, and only then perform
the server round trip on the saved client.  The traces below transcribe
the connected path of each method as the sequence of lock and wire
events it produces; a round trip spans callStart to callEnd. -/

inductive LockEv
  | acq (exclusive : Bool)
  | stCheck
  | rel
  | callStart (cmd : String)
  | callEnd (cmd : String)
deriving DecidableEq

/-- SetFlags (imap/protocol.go): mu.Lock; closed/client check; mu.Unlock;
client.UidStore round trip. -/
def setFlagsTrace : List LockEv :=
  [LockEv.acq true, LockEv.stCheck, LockEv.rel,
   LockEv.callStart "UID STORE", LockEv.callEnd "UID STORE"]

/-- CopyMessage (imap/protocol.go): mu.Lock; check; mu.Unlock; client.UidCopy. -/
def copyMessageTrace : List LockEv :=
  [LockEv.acq true, LockEv.stCheck, LockEv.rel,
   LockEv.callStart "UID COPY", LockEv.callEnd "UID COPY"]

/-- Expunge (imap/protocol.go): mu.Lock; check; mu.Unlock; client.Expunge. -/
def expungeTrace : List LockEv :=
  [LockEv.acq true, LockEv.stCheck, LockEv.rel,
   LockEv.callStart "EXPUNGE", LockEv.callEnd "EXPUNGE"]

/-- SelectFolder (imap/protocol.go): mu.RLock; check; mu.RUnlock; client.Select. -/
def selectFolderTrace : List LockEv :=
  [LockEv.acq false, LockEv.stCheck, LockEv.rel,
   LockEv.callStart "SELECT", LockEv.callEnd "SELECT"]

/-- SearchUIDs (imap/protocol.go): mu.RLock; check; mu.RUnlock; client.UidSearch. -/
def searchUIDsTrace : List LockEv :=
  [LockEv.acq false, LockEv.stCheck, LockEv.rel,
   LockEv.callStart "UID SEARCH", LockEv.callEnd "UID SEARCH"]

/-- FetchMessages (imap/protocol.go): mu.RLock; check; mu.RUnlock; client.UidFetch. -/
def fetchMessagesTrace : List LockEv :=
  [LockEv.acq false, LockEv.stCheck, LockEv.rel,
   LockEv.callStart "UID FETCH", LockEv.callEnd "UID FETCH"]

/-- SendMessage (smtp/protocol.go): mu.RLock; check; mu.RUnlock; then the
MAIL FROM / RCPT TO / DATA exchange, one round trip window on the wire. -/
def sendMessageTrace : List LockEv :=
  [LockEv.acq false, LockEv.stCheck, LockEv.rel,
   LockEv.callStart "MAIL FROM", LockEv.callEnd "DATA"]

/-- All server round trips in the trace start while the lock depth of the
executing goroutine is zero, that is, after the mutex was released. -/
def callsOutsideLock : List LockEv → Nat → Bool
  | [], _ => true
  | LockEv.acq _ :: rest, d => callsOutsideLock rest (d + 1)
  | LockEv.rel :: rest, d => callsOutsideLock rest (d - 1)
  | LockEv.callStart _ :: rest, d => decide (d = 0) && callsOutsideLock rest d
  | _ :: rest, d => callsOutsideLock rest d

/-- All closed-flag checks in the trace happen while the mutex is held. -/
def checksUnderLock : List LockEv → Nat → Bool
  | [], _ => true
  | LockEv.acq _ :: rest, d => checksUnderLock rest (d + 1)
  | LockEv.rel :: rest, d => checksUnderLock rest (d - 1)
  | LockEv.stCheck :: rest, d => decide (0 < d) && checksUnderLock rest d
  | _ :: rest, d => checksUnderLock rest d

/-- Events of one goroutine within a two-goroutine schedule (goroutines are
named by a Bool). -/
def projTrace (t : Bool) (s : List (Bool × LockEv)) : List LockEv :=
  s.filterMap (fun p => if p.1 == t then some p.2 else none)

/-- RWMutex admissibility of a two-goroutine schedule: a goroutine may
acquire only when it holds nothing and no other goroutine holds an
incompatible mode (exclusive excludes everything, shared admits shared),
and may release only what it holds.  The two trailing arguments carry the
mode currently held by each goroutine. -/
def lockOK : List (Bool × LockEv) → Option Bool → Option Bool → Bool
  | [], _, _ => true
  | (t, LockEv.acq ex) :: rest, ha, hb =>
      (if t then ha else hb).isNone &&
      (match (if t then hb else ha) with
       | none => true
       | some oex => !oex && !ex) &&
      (if t then lockOK rest (some ex) hb else lockOK rest ha (some ex))
  | (t, LockEv.rel) :: rest, ha, hb =>
      (if t then ha else hb).isSome &&
      (if t then lockOK rest none hb else lockOK rest ha none)
  | _ :: rest, ha, hb => lockOK rest ha hb

/-- No two server round trips are in flight at once in the schedule: when a
callStart appears while the other goroutine is between callStart and
callEnd, the schedule overlaps.  The two trailing arguments carry whether
each goroutine currently has a round trip in flight. -/
def overlapFree : List (Bool × LockEv) → Bool → Bool → Bool
  | [], _, _ => true
  | (t, LockEv.callStart _) :: rest, fa, fb =>
      let fa1 := fa || t
      let fb1 := fb || !t
      !(fa1 && fb1) && overlapFree rest fa1 fb1
  | (t, LockEv.callEnd _) :: rest, fa, fb =>
      overlapFree rest (fa && !t) (fb && t)
  | _ :: rest, fa, fb => overlapFree rest fa fb

/-- A schedule of two concurrent SetFlags calls on one connection in which
both mutex critical sections complete first and the two UID STORE round
trips then overlap on the wire. -/
def badSched : List (Bool × LockEv) :=
  [(true, LockEv.acq true), (true, LockEv.stCheck), (true, LockEv.rel),
   (false, LockEv.acq true), (false, LockEv.stCheck), (false, LockEv.rel),
   (true, LockEv.callStart "UID STORE"), (false, LockEv.callStart "UID STORE"),
   (true, LockEv.callEnd "UID STORE"), (false, LockEv.callEnd "UID STORE")]

/-! ### Helper lemmas -/

/-- A uint64 value below 2^63 converts to the same signed integer. -/
theorem uint64ToInt64_small (n : Nat) (hn : n < INT64HALF) :
    uint64ToInt64 n = (n : Int) := by
  have hmod : n % UINT64MOD = n := Nat.mod_eq_of_lt (by
    have : INT64HALF < UINT64MOD := by decide
    omega)
  simp [uint64ToInt64, hmod, hn]

/-- Looking a key up after filtering that key out finds nothing. -/
theorem find_after_filter {α : Type} (l : List (Int × α)) (h : Int) :
    (l.filter (fun kv => kv.1 != h)).find? (fun kv => kv.1 == h) = none := by
  rw [List.find?_eq_none]
  intro kv hkv
  have hmem := (List.mem_filter.mp hkv).2
  simp only [bne_iff_ne, ne_eq, decide_eq_true_eq] at hmem ⊢
  simpa using hmem

/-- Looking up a key that no entry carries finds nothing. -/
theorem find_of_not_mem {α : Type} (l : List (Int × α)) (h : Int)
    (hnm : h ∉ l.map Prod.fst) :
    l.find? (fun kv => kv.1 == h) = none := by
  rw [List.find?_eq_none]
  intro kv hkv
  intro hbeq
  exact hnm (List.mem_map.mpr ⟨kv, hkv, by simpa using (beq_iff_eq.mp hbeq)⟩)

/-- C2 witness pool and related concrete states. -/
def poolNat0 : ConnectionPool Nat := ConnectionPool.New

/-- Claim C2 (confirmed): on any pool state reachable by at most 10000 adds
(nextID between 1 and 10001, every resident key positive and below nextID,
keys distinct), a below-capacity add succeeds with handle nextID, which is
positive, strictly above every key ever handed out (hence every resident
key, and fresh), get on the new handle returns the very connection added,
and the key invariant including distinctness is reestablished with the
counter advanced by one; an add on a pool of resident size exactly 10000
fails with the capacity error and leaves the pool completely unchanged;
remove never changes the counter and preserves the key invariant, so
handles are never reused even after removals. -/
theorem pool_add_monotone_capacity {α : Type} (p : ConnectionPool α) (conn : α)
    (hlo : 1 ≤ p.nextID) (hhi : p.nextID ≤ 10001)
    (hkeys : ∀ k ∈ p.connections.map Prod.fst, 0 < k ∧ k < (p.nextID : Int))
    (hnd : (p.connections.map Prod.fst).Nodup) :
    (p.connections.length < 10000 →
       ConnectionPool.Add p conn =
         ({ connections := ((p.nextID : Int), conn) :: p.connections,
            nextID := p.nextID + 1 },
          .ok (p.nextID : Int)) ∧
       0 < (p.nextID : Int) ∧
       (p.nextID : Int) ∉ p.connections.map Prod.fst ∧
       (∀ k ∈ p.connections.map Prod.fst, k < (p.nextID : Int)) ∧
       ConnectionPool.Get
         { connections := ((p.nextID : Int), conn) :: p.connections,
           nextID := p.nextID + 1 }
         (p.nextID : Int) = .ok conn ∧
       (∀ k ∈ (((p.nextID : Int), conn) :: p.connections).map Prod.fst,
          0 < k ∧ k < ((p.nextID + 1 : Nat) : Int)) ∧
       ((((p.nextID : Int), conn) :: p.connections).map Prod.fst).Nodup) ∧
    (p.connections.length = 10000 →
       ConnectionPool.Add p conn = (p, .error "connection pool limit reached")) ∧
    (∀ hd : Int,
       (ConnectionPool.Remove p hd).nextID = p.nextID ∧
       ∀ k ∈ (ConnectionPool.Remove p hd).connections.map Prod.fst,
         0 < k ∧ k < (p.nextID : Int)) := by
  have hconv : uint64ToInt64 p.nextID = (p.nextID : Int) :=
    uint64ToInt64_small p.nextID (by
      have : (10001 : Nat) < INT64HALF := by decide
      omega)
  have hmod : (p.nextID + 1) % UINT64MOD = p.nextID + 1 := Nat.mod_eq_of_lt (by
    have : (10002 : Nat) < UINT64MOD := by decide
    omega)
  refine ⟨fun hlen => ?_, fun hlen => ?_, fun hd => ?_⟩
  · have hadd : ConnectionPool.Add p conn =
        ({ connections := ((p.nextID : Int), conn) :: p.connections,
           nextID := p.nextID + 1 },
         .ok (p.nextID : Int)) := by
      simp [ConnectionPool.Add, Nat.not_le.mpr hlen, hconv, hmod]
    have hfresh : (p.nextID : Int) ∉ p.connections.map Prod.fst := by
      intro hmem
      exact absurd (hkeys _ hmem).2 (lt_irrefl _)
    refine ⟨hadd, by exact_mod_cast hlo, hfresh,
      fun k hk => (hkeys k hk).2, ?_, ?_, ?_⟩
    · simp [ConnectionPool.Get, List.find?]
    · intro k hk
      rcases List.mem_map.mp hk with ⟨kv, hkv, rfl⟩
      rcases List.mem_cons.mp hkv with h1 | h2
      · subst h1
        constructor
        · show (0 : Int) < (p.nextID : Int)
          exact_mod_cast hlo
        · show (p.nextID : Int) < ((p.nextID + 1 : Nat) : Int)
          push_cast
          omega
      · have := hkeys _ (List.mem_map.mpr ⟨kv, h2, rfl⟩)
        refine ⟨this.1, ?_⟩
        have := this.2
        push_cast
        push_cast at this
        omega
    · simp only [List.map_cons, List.nodup_cons]
      exact ⟨hfresh, hnd⟩
  · simp [ConnectionPool.Add, hlen]
  · refine ⟨rfl, fun k hk => ?_⟩
    rcases List.mem_map.mp hk with ⟨kv, hkv, rfl⟩
    have := List.mem_filter.mp hkv
    exact hkeys _ (List.mem_map.mpr ⟨kv, this.1, rfl⟩)

/-- Witness for C2 at concrete inputs: the very first add on a fresh pool
returns handle 1 and get on it returns the stored connection, and the
remove clause holds. -/
theorem pool_add_monotone_capacity_witness :
    ConnectionPool.Add poolNat0 42 =
      ({ connections := [((1 : Int), 42)], nextID := 2 }, .ok 1) ∧
    ConnectionPool.Get
      { connections := [((1 : Int), (42 : Nat))], nextID := 2 } 1 = .ok 42 ∧
    (ConnectionPool.Remove poolNat0 7).nextID = 1 := by
  have T := pool_add_monotone_capacity poolNat0 42 (by decide) (by decide)
    (by intro k hk; simp [poolNat0, ConnectionPool.New] at hk)
    (by simp [poolNat0, ConnectionPool.New])
  have h1 := (T.1 (by simp [poolNat0, ConnectionPool.New]))
  exact ⟨h1.1, h1.2.2.2.2.1, (T.2.2 7).1⟩

/-- Concrete pool for the C9 witness: one resident handle 1. -/
def poolNat1 : ConnectionPool Nat := { connections := [((1 : Int), 7)], nextID := 2 }

/-- Claim C9 (confirmed): remove is total (its type returns no error) and
idempotent, removing a never-added or already-removed handle changes
nothing, and after any remove of a handle a get on it fails with exactly
the not-found error that a never-added handle produces. -/
theorem pool_remove_idempotent_total {α : Type} (p : ConnectionPool α) (h : Int) :
    ConnectionPool.Remove (ConnectionPool.Remove p h) h = ConnectionPool.Remove p h ∧
    (h ∉ p.connections.map Prod.fst → ConnectionPool.Remove p h = p) ∧
    ConnectionPool.Get (ConnectionPool.Remove p h) h = .error "invalid connection handle" ∧
    (h ∉ p.connections.map Prod.fst →
       ConnectionPool.Get p h = .error "invalid connection handle") := by
  refine ⟨?_, fun hnm => ?_, ?_, fun hnm => ?_⟩
  · simp [ConnectionPool.Remove, List.filter_filter]
  · have : p.connections.filter (fun kv => kv.1 != h) = p.connections := by
      rw [List.filter_eq_self]
      intro kv hkv
      simp only [bne_iff_ne, ne_eq, decide_eq_true_eq]
      intro hk
      exact hnm (List.mem_map.mpr ⟨kv, hkv, hk⟩)
    cases p
    simp [ConnectionPool.Remove] at this ⊢
    exact this
  · simp only [ConnectionPool.Get, ConnectionPool.Remove, find_after_filter]
  · simp [ConnectionPool.Get, find_of_not_mem _ _ hnm]

/-- Witness for C9 at concrete inputs: removing the absent handle 5 twice
is the same as once, is a no-op, and get on 5 before and after removal
fails with the not-found error. -/
theorem pool_remove_idempotent_total_witness :
    ConnectionPool.Remove (ConnectionPool.Remove poolNat1 5) 5 =
      ConnectionPool.Remove poolNat1 5 ∧
    ConnectionPool.Remove poolNat1 5 = poolNat1 ∧
    ConnectionPool.Get (ConnectionPool.Remove poolNat1 5) 5 =
      .error "invalid connection handle" ∧
    ConnectionPool.Get poolNat1 5 = .error "invalid connection handle" := by
  have T := pool_remove_idempotent_total poolNat1 5
  exact ⟨T.1, T.2.1 (by decide), T.2.2.1, T.2.2.2 (by decide)⟩

/-- A connected connection state: not closed, live client, clean logout. -/
def connOpen : Connection :=
  { closed := false, clientNil := false, logoutErr := false }

/-- Counterexample for claim C3 as stated: it is not true that every
positive uint32 watermark N makes SearchUIDs request lower bound N + 1;
at the maximal watermark 4294967295 the uint32 sum wraps and the
requested lower bound is 0, not 4294967296. -/
theorem searchUIDs_watermark_claim_false :
    ¬ (∀ N : Nat, N < 4294967296 → 0 < N →
         searchCriteria N = { lo := N + 1, hi := 0 }) := by
  intro hcl
  exact absurd (hcl 4294967295 (by decide) (by decide)) (by decide)

/-- Claim C3 (corrected): on a connected session, watermark 0 requests the
full identifier range starting at 1 and unbounded above, and a positive
watermark N strictly below the maximal uint32 4294967295 requests exactly
the identifiers strictly greater than N (lower bound N + 1, upper bound
unbounded); SearchUIDs returns exactly what the server reports for that
range, wrapping a server failure. -/
theorem searchUIDs_incremental (c : Connection) (N : Nat)
    (server : SeqRange → Except String (List Nat))
    (hconn : c.notConnected = false) (hN : N < 4294967295) :
    searchCriteria 0 = { lo := 1, hi := 0 } ∧
    (0 < N → searchCriteria N = { lo := N + 1, hi := 0 }) ∧
    (∀ uids, server (searchCriteria N) = .ok uids →
       Connection.SearchUIDs c N server = .ok uids) ∧
    (∀ e, server (searchCriteria N) = .error e →
       Connection.SearchUIDs c N server = .error ("search failed: " ++ e)) := by
  refine ⟨by decide, fun hpos => ?_, fun uids hs => ?_, fun e hs => ?_⟩
  · have h1 : N % 4294967296 = N := Nat.mod_eq_of_lt (by omega)
    have h2 : (N + 1) % 4294967296 = N + 1 := Nat.mod_eq_of_lt (by omega)
    simp [searchCriteria, h1, h2, hpos]
  · simp [Connection.SearchUIDs, hconn, hs]
  · simp [Connection.SearchUIDs, hconn, hs]

/-- Witness for C3 at concrete inputs: watermark 5 on a connected session
requests lower bound 6 and returns the server's answer for it. -/
theorem searchUIDs_incremental_witness :
    searchCriteria 0 = { lo := 1, hi := 0 } ∧
    searchCriteria 5 = { lo := 6, hi := 0 } ∧
    Connection.SearchUIDs connOpen 5 (fun r => .ok [r.lo, 100]) = .ok [6, 100] := by
  have T := searchUIDs_incremental connOpen 5 (fun r => .ok [r.lo, 100])
    (by decide) (by decide)
  exact ⟨T.1, T.2.1 (by decide), T.2.2.1 [6, 100] rfl⟩

/-- Claim C10 (confirmed): for the maximal watermark 4294967295 the code
computes highestUID + 1 in uint32 arithmetic, which wraps to 0, so the
requested range has lower bound 0 instead of the empty set of identifiers
strictly above the watermark; a connected SearchUIDs call therefore hands
the server the range starting at 0. -/
theorem searchUIDs_maximal_watermark_wraps :
    searchCriteria 4294967295 = { lo := 0, hi := 0 } ∧
    Connection.SearchUIDs connOpen 4294967295 (fun r => .ok [r.lo]) = .ok [0] := by
  constructor
  · decide
  · rfl

/-- Whether an Except value is an error. -/
def isErrorResult {ε α : Type} : Except ε α → Bool
  | .error _ => true
  | .ok _ => false

/-- The UIDs keyed in the fetch result are exactly the UIDs of the messages
the server returned a readable body for, in stream order. -/
theorem fetchLoop_keys (msgs : List Msg) :
    (fetchLoop msgs).map Prod.fst = (msgs.filter (fun m => m.body.isSome)).map Msg.uid := by
  induction msgs with
  | nil => rfl
  | cons m rest ih =>
      cases hb : m.body with
      | none => simpa [fetchLoop, List.filter, hb] using ih
      | some b => simpa [fetchLoop, List.filter, hb] using ih

/-- Every message the server returned a body for contributes its
base64-encoded body to the fetch result. -/
theorem fetchLoop_mem (msgs : List Msg) :
    ∀ m ∈ msgs, ∀ b, m.body = some b → (m.uid, base64Encode b) ∈ fetchLoop msgs := by
  induction msgs with
  | nil => intro m hm; cases hm
  | cons hd rest ih =>
      intro m hm b hb
      rcases List.mem_cons.mp hm with h1 | h2
      · subst h1
        simp [fetchLoop, hb]
      · cases hbd : hd.body with
        | none => simpa [fetchLoop, hbd] using ih m h2 b hb
        | some b2 => simp [fetchLoop, hbd, ih m h2 b hb]

/-- Claim C4 (confirmed): fetch_messages on a disconnected session fails
with the not-connected error and no round trip; on an empty identifier
list it returns an empty mapping with no round trip; on a non-empty list
it performs the round trip and, when the fetch command succeeds, returns
a mapping keyed by exactly the identifiers the server returned bodies
for, each body base64-encoded, silently omitting every other requested
identifier; and the operation errors if and only if the session is not
connected or the fetch command itself errored. -/
theorem fetchMessages_partial_failure (c : Connection) (uids : List Nat)
    (msgs : List Msg) (cmdErr : Option String) :
    (c.notConnected = true →
       Connection.FetchMessages c uids msgs cmdErr = (.error "client not connected", false)) ∧
    (c.notConnected = false → uids = [] →
       Connection.FetchMessages c uids msgs cmdErr = (.ok [], false)) ∧
    (c.notConnected = false → uids ≠ [] →
       (Connection.FetchMessages c uids msgs cmdErr).2 = true ∧
       (cmdErr = none →
          (Connection.FetchMessages c uids msgs cmdErr).1 = .ok (fetchLoop msgs) ∧
          (fetchLoop msgs).map Prod.fst =
            (msgs.filter (fun m => m.body.isSome)).map Msg.uid ∧
          (∀ m ∈ msgs, ∀ b, m.body = some b →
             (m.uid, base64Encode b) ∈ fetchLoop msgs)) ∧
       (∀ e, cmdErr = some e →
          (Connection.FetchMessages c uids msgs cmdErr).1 =
            .error ("fetch failed: " ++ e))) ∧
    (isErrorResult (Connection.FetchMessages c uids msgs cmdErr).1 = true ↔
       (c.notConnected = true ∨ (uids ≠ [] ∧ cmdErr ≠ none))) := by
  refine ⟨fun hc => ?_, fun hc he => ?_, fun hc hne => ?_, ?_⟩
  · simp [Connection.FetchMessages, hc]
  · simp [Connection.FetchMessages, hc, he]
  · have hne2 : uids.isEmpty = false := by
      cases uids with
      | nil => exact absurd rfl hne
      | cons a l => rfl
    refine ⟨?_, fun hcmd => ?_, fun e hcmd => ?_⟩
    · cases cmdErr <;> simp [Connection.FetchMessages, hc, hne2]
    · simp [Connection.FetchMessages, hc, hne2, hcmd]
      exact ⟨fetchLoop_keys msgs, fetchLoop_mem msgs⟩
    · simp [Connection.FetchMessages, hc, hne2, hcmd]
  · by_cases hc : c.notConnected = true
    · simp [Connection.FetchMessages, hc, isErrorResult]
    · have hc2 : c.notConnected = false := by
        cases hcc : c.notConnected
        · rfl
        · exact absurd hcc hc
      cases uids with
      | nil => simp [Connection.FetchMessages, hc2, isErrorResult]
      | cons a l =>
          cases cmdErr with
          | none => simp [Connection.FetchMessages, hc2, isErrorResult]
          | some e => simp [Connection.FetchMessages, hc2, isErrorResult]

/-- Messages for the C4 witness: bodies returned only for UIDs 1 and 3. -/
def msgsWitness : List Msg :=
  [{ uid := 1, body := some [104, 105] }, { uid := 3, body := some [33] }]

/-- Witness for C4 at concrete inputs: requesting UIDs 1, 2 and 3 when the
server returns bodies only for 1 and 3 yields a two-entry base64 mapping
with no error, and the empty request performs no round trip. -/
theorem fetchMessages_partial_failure_witness :
    (Connection.FetchMessages connOpen [1, 2, 3] msgsWitness none).1 =
      .ok [(1, "aGk="), (3, "IQ==")] ∧
    Connection.FetchMessages connOpen [] msgsWitness none = (.ok [], false) := by
  have T := fetchMessages_partial_failure connOpen [1, 2, 3] msgsWitness none
  have h1 := ((T.2.2.1 rfl (by decide)).2.1 rfl).1
  have T0 := fetchMessages_partial_failure connOpen [] msgsWitness none
  exact ⟨h1.trans (by rfl), T0.2.1 rfl rfl⟩

/-- When some recipient is rejected, the recipient loop stops at the first
rejected one, reports an error naming that recipient's address, and emits
only RCPT TO commands. -/
theorem rcptLoop_first_rejection (rcptErr : String → Option String)
    (rcpts : List String) (r0 : String)
    (hfind : rcpts.find? (fun r => (rcptErr r).isSome) = some r0) :
    (rcptLoop rcptErr rcpts).2 =
      .error ("RCPT TO failed for " ++ r0 ++ ": " ++ ((rcptErr r0).getD "")) ∧
    ∀ p ∈ (rcptLoop rcptErr rcpts).1, ∃ a, p = Phase.rcpt a := by
  induction rcpts with
  | nil => cases hfind
  | cons r rest ih =>
      cases he : rcptErr r with
      | some e =>
          have hr : r0 = r := by
            rw [List.find?_cons, he] at hfind
            simp at hfind
            exact hfind.symm
          subst hr
          refine ⟨?_, ?_⟩
          · simp [rcptLoop, he]
          · intro p hp
            simp [rcptLoop, he] at hp
            exact ⟨r0, hp⟩
      | none =>
          have hfind2 : rest.find? (fun r => (rcptErr r).isSome) = some r0 := by
            rw [List.find?_cons, he] at hfind
            simpa using hfind
          have IH := ih hfind2
          refine ⟨?_, ?_⟩
          · simpa [rcptLoop, he] using IH.1
          · intro p hp
            simp [rcptLoop, he] at hp
            rcases hp with h1 | h2
            · exact ⟨r, h1⟩
            · exact IH.2 p h2

/-- Claim C8 (confirmed): on a connected SMTP session whose MAIL FROM
succeeded, a recipient list containing a rejected recipient makes
SendMessage fail with an error naming the first rejected recipient's
address, and the DATA command, the payload write and the DATA close are
never attempted after the rejection. -/
theorem sendMessage_rejected_recipient (c : Connection) (rcpts : List String)
    (rcptErr : String → Option String) (dataErr writeErr closeErr : Option String)
    (r0 : String) (hconn : c.notConnected = false)
    (hfind : rcpts.find? (fun r => (rcptErr r).isSome) = some r0) :
    (Connection.SendMessage c rcpts none rcptErr dataErr writeErr closeErr).2 =
      .error ("RCPT TO failed for " ++ r0 ++ ": " ++ ((rcptErr r0).getD "")) ∧
    Phase.data ∉ (Connection.SendMessage c rcpts none rcptErr dataErr writeErr closeErr).1 ∧
    Phase.write ∉ (Connection.SendMessage c rcpts none rcptErr dataErr writeErr closeErr).1 ∧
    Phase.closeData ∉
      (Connection.SendMessage c rcpts none rcptErr dataErr writeErr closeErr).1 := by
  have hr := rcptLoop_first_rejection rcptErr rcpts r0 hfind
  have hsend : Connection.SendMessage c rcpts none rcptErr dataErr writeErr closeErr =
      (Phase.mail :: (rcptLoop rcptErr rcpts).1,
       .error ("RCPT TO failed for " ++ r0 ++ ": " ++ ((rcptErr r0).getD ""))) := by
    simp [Connection.SendMessage, hconn, hr.1]
  rw [hsend]
  refine ⟨rfl, ?_, ?_, ?_⟩ <;>
    · intro hmem
      rcases List.mem_cons.mp hmem with h1 | h2
      · cases h1
      · rcases hr.2 _ h2 with ⟨a, ha⟩
        cases ha

/-- Recipient outcomes for the C8 witness: the server rejects exactly the
address bad@example.org. -/
def rcptErrWitness : String → Option String :=
  fun r => if r == "bad@example.org" then some "550 mailbox unavailable" else none

/-- Witness for C8 at concrete inputs: a send whose second recipient is
rejected fails with an error naming that address and never reaches the
DATA phase. -/
theorem sendMessage_rejected_recipient_witness :
    (Connection.SendMessage connOpen ["ok@example.org", "bad@example.org"] none
       rcptErrWitness none none none).2 =
      .error "RCPT TO failed for bad@example.org: 550 mailbox unavailable" ∧
    Phase.data ∉ (Connection.SendMessage connOpen ["ok@example.org", "bad@example.org"] none
       rcptErrWitness none none none).1 := by
  have T := sendMessage_rejected_recipient connOpen ["ok@example.org", "bad@example.org"]
    rcptErrWitness none none none "bad@example.org" rfl (by decide)
  exact ⟨T.1.trans (by rfl), T.2.1⟩

/-- Updating the entry of a present key makes lookup return the new value. -/
theorem find_update {α : Type} (l : List (Int × α)) (h : Int) (cNew : α)
    (hf : (l.find? (fun kv => kv.1 == h)).isSome) :
    (l.map (fun kv => if kv.1 == h then (kv.1, cNew) else kv)).find?
      (fun kv => kv.1 == h) = some (h, cNew) := by
  induction l with
  | nil => simp [List.find?] at hf
  | cons a t ih =>
      cases hb : (a.1 == h) with
      | true =>
          have ha : a.1 = h := beq_iff_eq.mp hb
          simp [List.find?, hb, ha]
      | false =>
          rw [List.find?_cons, hb] at hf
          simpa [List.find?, hb] using ih hf

/-- Pool-level corollaries: get after remove fails, get after update of a
resident handle returns the updated object. -/
theorem get_remove_none {α : Type} (p : ConnectionPool α) (h : Int) :
    ConnectionPool.Get (ConnectionPool.Remove p h) h = .error "invalid connection handle" := by
  simp only [ConnectionPool.Get, ConnectionPool.Remove, find_after_filter]

/-- Get after an in-place update of a resident handle sees the new state. -/
theorem get_update_ok {α : Type} (p : ConnectionPool α) (h : Int) (c cNew : α)
    (hget : ConnectionPool.Get p h = .ok c) :
    ConnectionPool.Get (ConnectionPool.update p h cNew) h = .ok cNew := by
  have hf : (p.connections.find? (fun kv => kv.1 == h)).isSome := by
    rw [ConnectionPool.Get] at hget
    cases hx : p.connections.find? (fun kv => kv.1 == h) with
    | none => rw [hx] at hget; cases hget
    | some kv => simp
  simp only [ConnectionPool.Get, ConnectionPool.update]
  rw [find_update _ _ _ hf]

/-- Pool for the C5 counterexample: handle 1 is resident and its transport
will report an error from Logout/Quit. -/
def poolLogoutFails : ConnectionPool Connection :=
  { connections := [((1 : Int), { closed := false, clientNil := false, logoutErr := true })],
    nextID := 2 }

/-- Counterexample for claim C5 as stated: when the Logout of a close
action errors, the handler surfaces the error without removing the handle,
so after the close action completes the connection is still resident (the
claim says it is no longer resident). -/
theorem handleClose_leaves_resident_on_logout_error :
    (Handler.handleClose poolLogoutFails 1).2 = .error "logout failed" ∧
    ConnectionPool.Get (Handler.handleClose poolLogoutFails 1).1 1 =
      .ok { closed := true, clientNil := true, logoutErr := true } := by
  exact ⟨rfl, rfl⟩

/-- Claim C5 (corrected): a close action on a resident open handle always
logs the transport out (the closed flag is set and the client released in
the pooled object); when Logout/Quit returns no error the handle is then
removed, so the connection is no longer resident; but when Logout/Quit
errors the handler returns that error without removing the handle, leaving
the (closed) connection resident. -/
theorem handleClose_destroys_connection (pl : ConnectionPool Connection)
    (h : Int) (c : Connection) (hget : ConnectionPool.Get pl h = .ok c)
    (hcl : c.closed = false) (hnil : c.clientNil = false) :
    (c.logoutErr = false →
       Handler.handleClose pl h =
         (ConnectionPool.Remove
            (ConnectionPool.update pl h
              { closed := true, clientNil := true, logoutErr := false }) h,
          .ok ()) ∧
       ConnectionPool.Get (Handler.handleClose pl h).1 h =
         .error "invalid connection handle") ∧
    (c.logoutErr = true →
       (Handler.handleClose pl h).2 = .error "logout failed" ∧
       ConnectionPool.Get (Handler.handleClose pl h).1 h =
         .ok { closed := true, clientNil := true, logoutErr := true }) := by
  constructor
  · intro hlo
    have hclose : Handler.handleClose pl h =
        (ConnectionPool.Remove
           (ConnectionPool.update pl h
             { closed := true, clientNil := true, logoutErr := false }) h,
         .ok ()) := by
      simp [Handler.handleClose, hget, Connection.Close, hcl, hnil, hlo]
    exact ⟨hclose, by rw [hclose]; exact get_remove_none _ _⟩
  · intro hlo
    have hclose : Handler.handleClose pl h =
        (ConnectionPool.update pl h
           { closed := true, clientNil := true, logoutErr := true },
         .error "logout failed") := by
      simp [Handler.handleClose, hget, Connection.Close, hcl, hnil, hlo]
    refine ⟨by rw [hclose], ?_⟩
    rw [hclose]
    exact get_update_ok pl h c _ hget

/-- Pool for witnesses of the close claims: handle 1 resident and open,
its logout clean. -/
def poolCloseOk : ConnectionPool Connection :=
  { connections := [((1 : Int), connOpen)], nextID := 2 }

/-- Witness for C5 at concrete inputs: closing resident handle 1 whose
logout is clean removes it, and a get afterwards fails. -/
theorem handleClose_destroys_connection_witness :
    (Handler.handleClose poolCloseOk 1).2 = .ok () ∧
    ConnectionPool.Get (Handler.handleClose poolCloseOk 1).1 1 =
      .error "invalid connection handle" := by
  have T := handleClose_destroys_connection poolCloseOk 1 connOpen rfl rfl rfl
  have h1 := T.1 rfl
  exact ⟨by rw [h1.1], h1.2⟩

/-- Counterexample for claim C6 as stated: after a successful close action
on handle 1, a select_folder on that handle fails with the pool's lookup
error "invalid connection handle", not with a "client not connected"
error. -/
theorem dataAction_after_close_error_is_lookup :
    Handler.handleSelectFolder (Handler.handleClose poolCloseOk 1).1 1 none =
      .error "invalid connection handle" ∧
    Handler.handleSelectFolder (Handler.handleClose poolCloseOk 1).1 1 none ≠
      .error "client not connected" := by
  have h1 : Handler.handleSelectFolder (Handler.handleClose poolCloseOk 1).1 1 none =
      .error "invalid connection handle" := rfl
  refine ⟨h1, fun hcon => ?_⟩
  exact absurd (Except.error.inj (h1.symm.trans hcon)) (by decide)

/-- Claim C6 (corrected): after a close action on a resident open handle,
every data action on that handle (select_folder, search_uids,
fetch_messages, set_flags, copy_message, expunge, noop) fails with an
error rather than reconnecting or crashing: with the lookup error
"invalid connection handle" when the close removed the handle, and with
"client not connected" when the logout errored so the handle stayed
resident with its connection marked closed. -/
theorem dataActions_after_close_fail (pl : ConnectionPool Connection)
    (h : Int) (c : Connection) (hget : ConnectionPool.Get pl h = .ok c)
    (hcl : c.closed = false) (hnil : c.clientNil = false)
    (sErr : Option String) (N : Nat)
    (server : SeqRange → Except String (List Nat))
    (uids : List Nat) (msgs : List Msg) (cmdErr : Option String) :
    (c.logoutErr = false →
       Handler.handleSelectFolder (Handler.handleClose pl h).1 h sErr =
         .error "invalid connection handle" ∧
       Handler.handleSearchUIDs (Handler.handleClose pl h).1 h N server =
         .error "invalid connection handle" ∧
       Handler.handleFetchMessages (Handler.handleClose pl h).1 h uids msgs cmdErr =
         .error "invalid connection handle" ∧
       Handler.handleSetFlags (Handler.handleClose pl h).1 h sErr =
         .error "invalid connection handle" ∧
       Handler.handleCopyMessage (Handler.handleClose pl h).1 h sErr =
         .error "invalid connection handle" ∧
       Handler.handleExpunge (Handler.handleClose pl h).1 h sErr =
         .error "invalid connection handle" ∧
       Handler.handleNoop (Handler.handleClose pl h).1 h sErr =
         .error "invalid connection handle") ∧
    (c.logoutErr = true →
       Handler.handleSelectFolder (Handler.handleClose pl h).1 h sErr =
         .error "client not connected" ∧
       Handler.handleSearchUIDs (Handler.handleClose pl h).1 h N server =
         .error "client not connected" ∧
       Handler.handleFetchMessages (Handler.handleClose pl h).1 h uids msgs cmdErr =
         .error "client not connected" ∧
       Handler.handleSetFlags (Handler.handleClose pl h).1 h sErr =
         .error "client not connected" ∧
       Handler.handleCopyMessage (Handler.handleClose pl h).1 h sErr =
         .error "client not connected" ∧
       Handler.handleExpunge (Handler.handleClose pl h).1 h sErr =
         .error "client not connected" ∧
       Handler.handleNoop (Handler.handleClose pl h).1 h sErr =
         .error "client not connected") := by
  constructor
  · intro hlo
    have hclose : (Handler.handleClose pl h).1 =
        ConnectionPool.Remove
          (ConnectionPool.update pl h
            { closed := true, clientNil := true, logoutErr := false }) h := by
      simp [Handler.handleClose, hget, Connection.Close, hcl, hnil, hlo]
    have hg : ConnectionPool.Get (Handler.handleClose pl h).1 h =
        .error "invalid connection handle" := by
      rw [hclose]; exact get_remove_none _ _
    refine ⟨?_, ?_, ?_, ?_, ?_, ?_, ?_⟩ <;>
      simp [Handler.handleSelectFolder, Handler.handleSearchUIDs,
        Handler.handleFetchMessages, Handler.handleSetFlags,
        Handler.handleCopyMessage, Handler.handleExpunge, Handler.handleNoop, hg]
  · intro hlo
    have hclose : (Handler.handleClose pl h).1 =
        ConnectionPool.update pl h
          { closed := true, clientNil := true, logoutErr := true } := by
      simp [Handler.handleClose, hget, Connection.Close, hcl, hnil, hlo]
    have hg : ConnectionPool.Get (Handler.handleClose pl h).1 h =
        .ok { closed := true, clientNil := true, logoutErr := true } := by
      rw [hclose]; exact get_update_ok pl h c _ hget
    refine ⟨?_, ?_, ?_, ?_, ?_, ?_, ?_⟩ <;>
      simp [Handler.handleSelectFolder, Handler.handleSearchUIDs,
        Handler.handleFetchMessages, Handler.handleSetFlags,
        Handler.handleCopyMessage, Handler.handleExpunge, Handler.handleNoop, hg,
        Connection.SelectFolder, Connection.SearchUIDs, Connection.FetchMessages,
        Connection.SetFlags, Connection.CopyMessage, Connection.Expunge,
        Connection.Noop, Connection.notConnected]

/-- Witness for C6 at concrete inputs: after closing resident handle 1 of
a one-entry pool, select_folder and noop on that handle both fail. -/
theorem dataActions_after_close_fail_witness :
    Handler.handleSelectFolder (Handler.handleClose poolCloseOk 1).1 1 none =
      .error "invalid connection handle" ∧
    Handler.handleNoop (Handler.handleClose poolCloseOk 1).1 1 none =
      .error "invalid connection handle" := by
  have T := dataActions_after_close_fail poolCloseOk 1 connOpen rfl rfl rfl
    none 0 (fun _ => .ok []) [] [] none
  have h1 := T.1 rfl
  exact ⟨h1.1, h1.2.2.2.2.2.2⟩

/-- Projection of an explicit pool value, stated for rewriting without
definitional unfolding of large pool literals. -/
theorem connectionPool_connections_mk {α : Type} (l : List (Int × α)) (n : Nat) :
    (ConnectionPool.mk l n).connections = l := rfl

/-- On successful dial and authentication, the connect handler is the
pool add on the freshly built open connection. -/
theorem handleConnect_dial_auth_ok (pl : ConnectionPool Connection) :
    Handler.handleConnect pl none none =
      (match ConnectionPool.Add pl
         { closed := false, clientNil := false, logoutErr := false } with
       | (pl1, .ok h) => (pl1, .ok h)
       | (pl1, .error e) => (pl1, .error e)) := rfl

/-- A pool holding 10000 distinct resident handles. -/
def poolFull : ConnectionPool Connection :=
  { connections := (List.range 10000).map (fun i => (Int.ofNat i + 1, connOpen)),
    nextID := 10001 }

/-- Counterexample for claim C7 as stated: a connect attempt whose dial and
authentication both succeed registers nothing when the pool already holds
10000 connections — the handler returns the capacity error and the pool is
unchanged, refuting the claimed "registers if and only if dial and
authentication both succeed". -/
theorem connect_success_need_not_register :
    Handler.handleConnect poolFull none none =
      (poolFull, .error "connection pool limit reached") := by
  have hlen : poolFull.connections.length = 10000 := by
    unfold poolFull
    rw [connectionPool_connections_mk, List.length_map, List.length_range]
  have hadd : ConnectionPool.Add poolFull
      { closed := false, clientNil := false, logoutErr := false } =
      (poolFull, .error "connection pool limit reached") := by
    unfold ConnectionPool.Add
    rw [if_pos hlen.ge]
  rw [handleConnect_dial_auth_ok, hadd]

/-- Claim C7 (corrected): a dial failure surfaces "failed to connect" with
no logout and nothing registered; an authentication failure logs the
transport out before surfacing "login failed", with nothing registered; a
connect whose dial and authentication succeed registers a fresh open
connection (get on the returned handle finds it) when the pool is below
capacity; and when the pool is at capacity even a fully successful connect
registers nothing and surfaces the capacity error — so connect registers a
connection if and only if dial and authentication succeed and the pool has
room. -/
theorem connect_teardown_and_registration (pl : ConnectionPool Connection)
    (dialErr authErr : Option String) :
    (∀ e, dialErr = some e →
       Handler.handleConnect pl dialErr authErr =
         (pl, .error ("failed to connect: " ++ e)) ∧
       (imapConnect dialErr authErr).2 = false) ∧
    (∀ e, dialErr = none → authErr = some e →
       (imapConnect dialErr authErr).2 = true ∧
       Handler.handleConnect pl dialErr authErr =
         (pl, .error ("login failed: " ++ e))) ∧
    (dialErr = none → authErr = none → pl.connections.length < 10000 →
       Handler.handleConnect pl dialErr authErr =
         ({ connections := (uint64ToInt64 pl.nextID, connOpen) :: pl.connections,
            nextID := (pl.nextID + 1) % UINT64MOD },
          .ok (uint64ToInt64 pl.nextID)) ∧
       ConnectionPool.Get (Handler.handleConnect pl dialErr authErr).1
         (uint64ToInt64 pl.nextID) = .ok connOpen) ∧
    (dialErr = none → authErr = none → pl.connections.length ≥ 10000 →
       Handler.handleConnect pl dialErr authErr =
         (pl, .error "connection pool limit reached")) := by
  refine ⟨fun e hd => ?_, fun e hd ha => ?_, fun hd ha hlen => ?_, fun hd ha hlen => ?_⟩
  · subst hd
    exact ⟨by simp [Handler.handleConnect, imapConnect], rfl⟩
  · subst hd; subst ha
    exact ⟨rfl, by simp [Handler.handleConnect, imapConnect]⟩
  · subst hd; subst ha
    have hadd : Handler.handleConnect pl none none =
        ({ connections := (uint64ToInt64 pl.nextID, connOpen) :: pl.connections,
           nextID := (pl.nextID + 1) % UINT64MOD },
         .ok (uint64ToInt64 pl.nextID)) := by
      simp [Handler.handleConnect, imapConnect, ConnectionPool.Add,
        Nat.not_le.mpr hlen, connOpen]
    refine ⟨hadd, ?_⟩
    rw [hadd]
    simp [ConnectionPool.Get, List.find?]
  · subst hd; subst ha
    simp [Handler.handleConnect, imapConnect, ConnectionPool.Add, hlen]

/-- Witness for C7 at concrete inputs: on an empty pool, a connect whose
authentication fails logs the transport out, returns the login error and
registers nothing; a fully successful connect registers handle 1. -/
theorem connect_teardown_and_registration_witness :
    (imapConnect none (some "bad credentials")).2 = true ∧
    Handler.handleConnect (ConnectionPool.New) none (some "bad credentials") =
      (ConnectionPool.New, .error "login failed: bad credentials") ∧
    ConnectionPool.Get (Handler.handleConnect (ConnectionPool.New) none none).1
      (uint64ToInt64 1) = .ok connOpen := by
  have T1 := (connect_teardown_and_registration ConnectionPool.New none
    (some "bad credentials")).2.1 "bad credentials" rfl rfl
  have T2 := ((connect_teardown_and_registration ConnectionPool.New none
    none).2.2.1 rfl rfl (by simp [ConnectionPool.New])).2
  exact ⟨T1.1, T1.2, T2⟩

/-- Counterexample for claim C1 as stated: it is not true that every
RWMutex-admissible interleaving of two concurrent SetFlags calls on one
connection keeps their server round trips from overlapping — badSched is
an admissible schedule (each goroutine completes its short critical
section before either issues UID STORE) in which the two UID STORE round
trips are in flight simultaneously, because the code releases the mutex
before the round trip instead of holding it across the round trip. -/
theorem setFlags_round_trips_can_overlap :
    ¬ (∀ s : List (Bool × LockEv),
         projTrace true s = setFlagsTrace → projTrace false s = setFlagsTrace →
         lockOK s none none = true → overlapFree s false false = true) := by
  intro hcl
  exact absurd (hcl badSched (by decide) (by decide) (by decide)) (by decide)

/-- Claim C1 (corrected): every operation that starts a server round trip
acquires the connection mutex (exclusively for set_flags, copy_message and
expunge, shared for select_folder, search_uids, fetch_messages and the
SMTP send) only around the closed-flag check and the client-pointer read,
and releases it before the round trip begins: in each operation's trace
the state check runs under the lock and every server call starts at lock
depth zero, so the per-connection lock does not serialize server round
trips. -/
theorem ops_release_lock_before_round_trip :
    (checksUnderLock setFlagsTrace 0 = true ∧
     callsOutsideLock setFlagsTrace 0 = true ∧
     setFlagsTrace.head? = some (LockEv.acq true)) ∧
    (checksUnderLock copyMessageTrace 0 = true ∧
     callsOutsideLock copyMessageTrace 0 = true ∧
     copyMessageTrace.head? = some (LockEv.acq true)) ∧
    (checksUnderLock expungeTrace 0 = true ∧
     callsOutsideLock expungeTrace 0 = true ∧
     expungeTrace.head? = some (LockEv.acq true)) ∧
    (checksUnderLock selectFolderTrace 0 = true ∧
     callsOutsideLock selectFolderTrace 0 = true ∧
     selectFolderTrace.head? = some (LockEv.acq false)) ∧
    (checksUnderLock searchUIDsTrace 0 = true ∧
     callsOutsideLock searchUIDsTrace 0 = true ∧
     searchUIDsTrace.head? = some (LockEv.acq false)) ∧
    (checksUnderLock fetchMessagesTrace 0 = true ∧
     callsOutsideLock fetchMessagesTrace 0 = true ∧
     fetchMessagesTrace.head? = some (LockEv.acq false)) ∧
    (checksUnderLock sendMessageTrace 0 = true ∧
     callsOutsideLock sendMessageTrace 0 = true ∧
     sendMessageTrace.head? = some (LockEv.acq false)) := by
  decide
